import Mathlib

/-
Verification of the buzzline-06-mee streaming pipeline.

Shallow embedding of:
  src/producers/producer_mee.py    (generate_messages, main)
  src/consumers/kafka_consumer_mee.py (process_message, consume_messages_from_kafka)
  src/consumers/db_sqlite_mee.py   (init_db, insert_message, delete_message, get_all_messages)

Modelling conventions:
- A Python dict with string keys is a `Dict`: an association list whose values are
  `Option String` (`none` models Python `None`).  `Dict.lookup` returns `none` when the
  key is absent (a subscript there raises KeyError); `Dict.get` is Python `dict.get`
  with its default of `None`.
- The SQLite store is `Option Table`: `none` models a database in which the
  `streamed_messages` table does not exist (executing SQL against it raises, which the
  source catches, leaving the state unchanged); `some t` models the live table.
  A `Table` carries the AUTOINCREMENT counter and the rows in rowid order, which is the
  order `SELECT *` returns them in.
- Each db function in the source wraps its whole body in `try/except Exception` and
  returns `None`; the embedding therefore makes each operation a total function from
  state to state (plus a result for `get_all_messages`), with the exceptional branches
  mapped to the state-preserving cases the handlers produce.
- Timestamps are integers counting minutes, matching the minute granularity of the
  source format string; `datetime.now()` becomes an explicit `now` parameter and the
  `random` calls become explicit choice parameters constrained to the ranges
  `random.randint` and `random.choice` draw from.
-/

set_option autoImplicit false

namespace BuzzlineMee

/-- Python dict with string keys and values that are either a string or None. -/
structure Dict where
  entries : List (String × Option String)
deriving DecidableEq, Repr

/-- Subscript-style lookup: outer `none` means the key is absent (KeyError on `m[k]`);
`some v` means the key is present and bound to `v` (which may itself be Python None). -/
def Dict.lookup (m : Dict) (k : String) : Option (Option String) :=
  match m.entries.find? (fun p => p.1 = k) with
  | some p => some p.2
  | none => none

/-- Python `m.get(k)`: the bound value when the key is present, else None. -/
def Dict.get (m : Dict) (k : String) : Option String :=
  match m.lookup k with
  | some v => v
  | none => none

/-! Store model: src/consumers/db_sqlite_mee.py -/

/-- One row of the `streamed_messages` table: an AUTOINCREMENT id plus one TEXT column
per canonical field (columns are nullable, so fields are `Option String`). -/
structure Row where
  id : Nat
  user_id : Option String
  status : Option String
  log_in : Option String
  last_request : Option String
  description : Option String
deriving DecidableEq, Repr

/-- The `streamed_messages` table: the next AUTOINCREMENT id and the rows in rowid
(= insertion) order. -/
structure Table where
  next_id : Nat
  rows : List Row
deriving DecidableEq, Repr

/-- Embedding of `init_db` (db_sqlite_mee.py lines 39-75): DROP TABLE IF EXISTS then
CREATE TABLE, regardless of the prior state, leaving an empty table with a fresh
AUTOINCREMENT sequence. -/
def init_db (_db : Option Table) : Option Table :=
  some ⟨1, []⟩

/-- Embedding of `insert_message` (db_sqlite_mee.py lines 81-113): the parameter tuple
subscripts the five space-named keys; if any is absent the KeyError is caught by the
function's handler and nothing is inserted; otherwise one row is appended.  With no
table (`none`) the INSERT raises and is caught, leaving the state unchanged. -/
def insert_message (message : Dict) (db : Option Table) : Option Table :=
  match db with
  | none => none
  | some t =>
    match message.lookup "User ID", message.lookup "Status", message.lookup "Log in",
          message.lookup "Last Request", message.lookup "Description" with
    | some u, some s, some l, some r, some d =>
        some ⟨t.next_id + 1, t.rows ++ [⟨t.next_id, u, s, l, r, d⟩]⟩
    | _, _, _, _, _ => some t

/-- Embedding of `delete_message` (db_sqlite_mee.py lines 119-135): DELETE removes every
row whose id matches; with no table the statement raises and is caught. -/
def delete_message (message_id : Nat) (db : Option Table) : Option Table :=
  match db with
  | none => none
  | some t => some ⟨t.next_id, t.rows.filter (fun row => row.id ≠ message_id)⟩

/-- Embedding of `get_all_messages` (db_sqlite_mee.py lines 141-165): SELECT * returns
the rows in rowid order; on failure (here: no table) the handler returns the empty
list. -/
def get_all_messages (db : Option Table) : List Row :=
  match db with
  | none => []
  | some t => t.rows

/-! Consumer model: src/consumers/kafka_consumer_mee.py -/

/-- The module-level `user_status_data` dictionary: keys are the `User_ID` values of
processed messages (possibly Python None), in Python dict insertion order. -/
structure Agg where
  entries : List (Option String × Dict)
deriving DecidableEq, Repr

/-- Python dict assignment `d[k] = v`: replace in place when the key exists, else
append. -/
def Agg.updateEntry (a : Agg) (k : Option String) (v : Dict) : Agg :=
  if a.entries.any (fun p => p.1 = k) then
    ⟨a.entries.map (fun p => if p.1 = k then (k, v) else p)⟩
  else ⟨a.entries ++ [(k, v)]⟩

/-- Python dict lookup `d[k]` on the aggregator. -/
def Agg.find (a : Agg) (k : Option String) : Option Dict :=
  match a.entries.find? (fun p => p.1 = k) with
  | some p => some p.2
  | none => none

/-- The dict literal built inside `process_message` (kafka_consumer_mee.py lines 65-72):
each field read with `.get`, so an absent key yields None, never an exception. -/
def processedOf (message : Dict) : Dict :=
  ⟨[("User_ID", message.get "User_ID"),
    ("Status", message.get "Status"),
    ("Log_in", message.get "Log_in"),
    ("Last_Request", message.get "Last_Request"),
    ("Description", message.get "Description"),
    ("timestamp", message.get "timestamp")]⟩

/-- Embedding of `process_message` (kafka_consumer_mee.py lines 61-81).  The global
`user_status_data` becomes explicit state: the function builds the processed dict,
assigns `user_status_data[user_id] = processed_message`, and returns the processed
dict.  For a dict input none of these operations can raise, so the handler branch that
returns None is unreachable; the result is always `some`. -/
def process_message (message : Dict) (user_status_data : Agg) : Option Dict × Agg :=
  let processed := processedOf message
  let user_id := message.get "User_ID"
  (some processed, user_status_data.updateEntry user_id processed)

/-- One iteration of the consumer loop (kafka_consumer_mee.py lines 108-113): run
`process_message`, then `if processed_message:` (a dict is truthy iff non-empty) insert
the processed dict into SQLite.  The chart update touches neither the aggregator nor
the store. -/
def consume_step (st : Agg × Option Table) (message : Dict) : Agg × Option Table :=
  match process_message message st.1 with
  | (some processed, agg2) =>
      if processed.entries.isEmpty then (agg2, st.2)
      else (agg2, insert_message processed st.2)
  | (none, agg2) => (agg2, st.2)

/-- The consumer loop over a finite list of received payloads. -/
def consume_run (messages : List Dict) (st : Agg × Option Table) : Agg × Option Table :=
  messages.foldl consume_step st

/-! Producer model: src/producers/producer_mee.py -/

/-- One message yielded by `generate_messages` (producer_mee.py lines 43-69), with the
two timestamps kept as integer minutes instead of their formatted string rendering. -/
structure GenMessage where
  user_id : String
  status : String
  log_in : Int
  last_request : Int
  description : String
deriving DecidableEq, Repr

/-- The fixed user roster of `generate_messages`. -/
def users : List String := ["ajurek", "bwendt", "cclemens", "dsmith", "ejones"]

/-- The fixed status roster of `generate_messages`. -/
def statuses : List String := ["green", "yellow", "red"]

/-- The fixed description roster of `generate_messages`. -/
def descriptions : List String :=
  ["Invoice Entry - Brief Mode",
   "Service Orders for Scheduling",
   "Job Summary Inquiry",
   "Customer Account Management",
   "Inventory Check"]

/-- The random draws of one `generate_messages` iteration: three `random.choice`
indices and the two `random.randint` offsets. -/
structure GenChoice where
  user_index : Nat
  status_index : Nat
  description_index : Nat
  hours_offset : Int
  minutes_offset : Int
deriving DecidableEq, Repr

/-- The ranges the source draws from: `random.choice` picks a valid index into each
roster, `random.randint(1, 8)` and `random.randint(1, 60)` are inclusive on both
ends. -/
def GenChoice.valid (c : GenChoice) : Prop :=
  c.user_index < users.length ∧ c.status_index < statuses.length ∧
  c.description_index < descriptions.length ∧
  1 ≤ c.hours_offset ∧ c.hours_offset ≤ 8 ∧
  1 ≤ c.minutes_offset ∧ c.minutes_offset ≤ 60

instance (c : GenChoice) : Decidable c.valid := by
  unfold GenChoice.valid; infer_instance

/-- One iteration of `generate_messages` at wall clock `now` (in minutes) with draws
`c`: `login_time = current_time - timedelta(hours=h)` and
`last_request_time = current_time - timedelta(minutes=m)`. -/
def generate_message (now : Int) (c : GenChoice) : GenMessage :=
  { user_id := users.getD c.user_index ""
    status := statuses.getD c.status_index ""
    log_in := now - 60 * c.hours_offset
    last_request := now - c.minutes_offset
    description := descriptions.getD c.description_index "" }

/-- STEP 4 of `main` (producer_mee.py lines 105-125): `verify_services` plus the
KafkaProducer constructor may fail, setting `producer = None`; only when a producer
exists is `create_kafka_topic` attempted, and its failure also sets `producer = None`.
Neither failure aborts the run. -/
def producer_setup (connect_ok : Bool) (topic_ok : Bool) : Bool :=
  if connect_ok then topic_ok else false

/-- STEP 5 of `main` (producer_mee.py lines 128-146), run over a finite list of
generated messages, the k-th message using `publish_ok k` as the outcome of
`producer.send`.  Per iteration the message is appended to the live data file, then
sent iff a transport is active; a raising send escapes the loop (there is no
per-message handler inside the `for`), so the iteration ends the loop after the file
write and the attempt.  Returns (file lines, send attempts). -/
def stream_loop (transport_active : Bool) (publish_ok : Nat → Bool) :
    Nat → List GenMessage → List GenMessage × List GenMessage
  | _, [] => ([], [])
  | k, message :: rest =>
    if transport_active then
      if publish_ok k then
        let next := stream_loop transport_active publish_ok (k + 1) rest
        (message :: next.1, message :: next.2)
      else ([message], [message])
    else
      let next := stream_loop transport_active publish_ok (k + 1) rest
      (message :: next.1, next.2)

/-- The producer run from STEP 4 through STEP 5: set up the transport, then stream. -/
def producer_run (connect_ok topic_ok : Bool) (publish_ok : Nat → Bool)
    (messages : List GenMessage) : List GenMessage × List GenMessage :=
  stream_loop (producer_setup connect_ok topic_ok) publish_ok 0 messages

/-- How a producer run can end, per `main`: the two `sys.exit` sites (lines 90 and
103), a runtime error inside the streaming loop (caught at line 145), a keyboard
interrupt (line 143), or normal termination. -/
inductive ProducerOutcome
  | config_fail
  | fs_fail
  | stream_error
  | interrupted
  | normal
deriving DecidableEq, Repr

/-- The process exit code of each outcome: `sys.exit(1)` for the configuration read
failure, `sys.exit(2)` for the file-system preparation failure; a streaming error is
caught and logged, after which `main` returns normally, so the interpreter exits
with 0, as do an interrupt and normal termination. -/
def producer_exit_code : ProducerOutcome → Nat
  | .config_fail => 1
  | .fs_fail => 2
  | .stream_error => 0
  | .interrupted => 0
  | .normal => 0

/-! Concrete data used by the theorems below. -/

/-- A wire message as the producer emits it (underscore keys): bwendt, green. -/
def wire1 : Dict :=
  ⟨[("User_ID", some "bwendt"), ("Status", some "green"),
    ("Log_in", some "02/18/2025 08:49"), ("Last_Request", some "02/18/2025 11:42"),
    ("Description", some "Invoice Entry - Brief Mode")]⟩

/-- A wire message as the producer emits it (underscore keys): ajurek, yellow. -/
def wire2 : Dict :=
  ⟨[("User_ID", some "ajurek"), ("Status", some "yellow"),
    ("Log_in", some "02/18/2025 07:15"), ("Last_Request", some "02/18/2025 11:50"),
    ("Description", some "Inventory Check")]⟩

/-- A second wire message for bwendt (underscore keys): red, later than wire1. -/
def wire3 : Dict :=
  ⟨[("User_ID", some "bwendt"), ("Status", some "red"),
    ("Log_in", some "02/18/2025 08:49"), ("Last_Request", some "02/18/2025 12:01"),
    ("Description", some "Job Summary Inquiry")]⟩

/-- The space-keyed test message from db_sqlite_mee.py main(). -/
def sampleMsg : Dict :=
  ⟨[("User ID", some "cclemens"), ("Status", some "green"),
    ("Log in", some "02/18/25 8:45:14 AM"), ("Last Request", some "02/18/25 11:22:37 AM"),
    ("Description", some "Job Summary Inquiry")]⟩

/-- A table with two rows of distinct ids, for delete witnesses. -/
def sampleTable : Table :=
  ⟨3, [⟨1, some "ajurek", some "green", some "l1", some "r1", some "d1"⟩,
       ⟨2, some "bwendt", some "red", some "l2", some "r2", some "d2"⟩]⟩

/-- A sample generated message for producer-loop witnesses. -/
def gm1 : GenMessage := ⟨"ajurek", "green", 100, 160, "Inventory Check"⟩

/-- A second sample generated message for producer-loop witnesses. -/
def gm2 : GenMessage := ⟨"bwendt", "red", 50, 200, "Job Summary Inquiry"⟩

/-! Helper lemmas. -/

/-- A lookup that misses makes Python dict.get return None. -/
theorem Dict.get_eq_none_of_lookup_none (m : Dict) (k : String)
    (h : m.lookup k = none) : m.get k = none := by
  unfold Dict.get
  rw [h]

/-- An in-range index keeps List.getD inside the list, so random.choice stays in the
roster. -/
theorem getD_mem_of_lt {α : Type} (d : α) (l : List α) (n : Nat) (h : n < l.length) :
    l.getD n d ∈ l := by
  induction l generalizing n with
  | nil => simp at h
  | cons a l ih =>
    cases n with
    | zero => simp [List.getD]
    | succ n =>
      simp only [List.getD_cons_succ]
      exact List.mem_cons_of_mem a (ih n (by simpa using h))

/-- Deleting by an id that is present in a duplicate-free id column removes exactly one
row. -/
theorem filter_length_delete (mid : Nat) :
    ∀ (l : List Row), (l.map Row.id).Nodup → ∀ r ∈ l, r.id = mid →
      (l.filter (fun row => row.id ≠ mid)).length + 1 = l.length := by
  intro l
  induction l with
  | nil =>
    intro _ r hr
    cases hr
  | cons a l ih =>
    intro hnodup r hr hrid
    rw [List.map_cons, List.nodup_cons] at hnodup
    obtain ⟨ha, hl⟩ := hnodup
    rcases List.mem_cons.mp hr with rfl | hrl
    · have hkeep : l.filter (fun row => row.id ≠ mid) = l := by
        apply List.filter_eq_self.2
        intro x hx
        simp only [decide_eq_true_eq]
        intro hxid
        have hx2 : x.id ∈ List.map Row.id l := List.mem_map_of_mem Row.id hx
        rw [hxid, ← hrid] at hx2
        exact ha hx2
      have hhead : (decide (r.id ≠ mid)) = false := by simp [hrid]
      rw [List.filter_cons, hhead]
      simp only [Bool.false_eq_true, if_false]
      rw [hkeep, List.length_cons]
    · have hane : a.id ≠ mid := by
        intro hmid
        have hr2 : r.id ∈ List.map Row.id l := List.mem_map_of_mem Row.id hrl
        rw [hrid, ← hmid] at hr2
        exact ha hr2
      rw [List.filter_cons_of_pos (by simpa using hane), List.length_cons,
        List.length_cons, ih hl r hrl hrid]

/-- With no transport, the producer loop writes every message to the file and attempts
no publish. -/
theorem stream_loop_inactive (p : Nat → Bool) :
    ∀ (k : Nat) (ms : List GenMessage), stream_loop false p k ms = (ms, []) := by
  intro k ms
  induction ms generalizing k with
  | nil => rfl
  | cons m rest ih => simp [stream_loop, ih]

/-- With a transport and no publish failure, the producer loop writes and publishes
every message. -/
theorem stream_loop_all_ok (p : Nat → Bool) (hp : ∀ i, p i = true) :
    ∀ (k : Nat) (ms : List GenMessage), stream_loop true p k ms = (ms, ms) := by
  intro k ms
  induction ms generalizing k with
  | nil => rfl
  | cons m rest ih => simp [stream_loop, hp, ih]

/-- With a transport, the loop runs up to and including the first failing publish: that
message is still written to the file (the write precedes the send) and still attempted,
and the loop then stops. -/
theorem stream_loop_first_fail (p : Nat → Bool) :
    ∀ (ms : List GenMessage) (k j : Nat), j < ms.length → p (k + j) = false →
      (∀ i, i < j → p (k + i) = true) →
      stream_loop true p k ms = (ms.take (j + 1), ms.take (j + 1)) := by
  intro ms
  induction ms with
  | nil =>
    intro k j hj
    simp at hj
  | cons m rest ih =>
    intro k j hj hfail hbefore
    cases j with
    | zero =>
      have hk : p k = false := by simpa using hfail
      simp [stream_loop, hk]
    | succ j =>
      have hk : p k = true := by simpa using hbefore 0 (Nat.succ_pos j)
      have hrest : stream_loop true p (k + 1) rest = (rest.take (j + 1), rest.take (j + 1)) := by
        apply ih (k + 1) j (by simpa using hj)
        · have hidx : k + 1 + j = k + (j + 1) := by omega
          rw [hidx]
          exact hfail
        · intro i hi
          have hidx : k + 1 + i = k + (i + 1) := by omega
          rw [hidx]
          exact hbefore (i + 1) (by omega)
      simp [stream_loop, hk, hrest]

/-! Claim theorems. -/

/-- C1: the spec claims the end-to-end run of 3 events for 2 users leaves 3 rows in
streamed_messages and 2 aggregator entries.  Evaluating the consumer on the producer's
wire messages shows the aggregator half holds (2 entries, last write wins) but the
store half fails: process_message emits underscore keys, insert_message subscripts the
space-named columns, so every insert hits the KeyError handler and 0 rows are
inserted. -/
theorem consume_pipeline_key_mismatch :
    (get_all_messages (consume_run [wire1, wire2, wire3] (⟨[]⟩, init_db none)).2).length = 0 ∧
    ((consume_run [wire1, wire2, wire3] (⟨[]⟩, init_db none)).1).entries.length = 2 ∧
    Agg.find (consume_run [wire1, wire2, wire3] (⟨[]⟩, init_db none)).1 (some "bwendt") =
      some (processedOf wire3) ∧
    Agg.find (consume_run [wire1, wire2, wire3] (⟨[]⟩, init_db none)).1 (some "ajurek") =
      some (processedOf wire2) ∧
    insert_message (processedOf wire1) (init_db none) = init_db none := by
  decide

/-- C2: inserting an event carrying the five space-named canonical fields and then
listing the store appends exactly one row, at the end (insertion order), whose five
fields are string-equal to the inserted event's values. -/
theorem insert_then_get_all_roundtrip (t : Table) (m : Dict) (u s l r d : String)
    (hu : m.lookup "User ID" = some (some u))
    (hs : m.lookup "Status" = some (some s))
    (hl : m.lookup "Log in" = some (some l))
    (hr : m.lookup "Last Request" = some (some r))
    (hd : m.lookup "Description" = some (some d)) :
    get_all_messages (insert_message m (some t)) =
      get_all_messages (some t) ++ [⟨t.next_id, some u, some s, some l, some r, some d⟩] := by
  simp [insert_message, get_all_messages, hu, hs, hl, hr, hd]

/-- C2 witness: the round trip evaluated on the db module's own test message over the
freshly initialized store. -/
theorem insert_then_get_all_roundtrip_witness :
    sampleMsg.lookup "User ID" = some (some "cclemens") ∧
    get_all_messages (insert_message sampleMsg (some ⟨1, []⟩)) =
      get_all_messages (some (⟨1, []⟩ : Table)) ++
        [⟨1, some "cclemens", some "green", some "02/18/25 8:45:14 AM",
          some "02/18/25 11:22:37 AM", some "Job Summary Inquiry"⟩] :=
  ⟨by decide,
   insert_then_get_all_roundtrip ⟨1, []⟩ sampleMsg "cclemens" "green" "02/18/25 8:45:14 AM"
     "02/18/25 11:22:37 AM" "Job Summary Inquiry"
     (by decide) (by decide) (by decide) (by decide) (by decide)⟩

/-- C3: process_message is total on dict inputs and always returns the processed event;
each of the five canonical fields is read with dict.get, so it equals the input's value
and in particular is None whenever the key is absent, and on the malformed input
containing only User_ID = "x" the result carries "x" with None everywhere else. -/
theorem process_message_total_nulls (m : Dict) (st : Agg) :
    (process_message m st).1 = some (processedOf m) ∧
    (processedOf m).get "User_ID" = m.get "User_ID" ∧
    (processedOf m).get "Status" = m.get "Status" ∧
    (processedOf m).get "Log_in" = m.get "Log_in" ∧
    (processedOf m).get "Last_Request" = m.get "Last_Request" ∧
    (processedOf m).get "Description" = m.get "Description" ∧
    (m.lookup "User_ID" = none → (processedOf m).get "User_ID" = none) ∧
    (m.lookup "Status" = none → (processedOf m).get "Status" = none) ∧
    (m.lookup "Log_in" = none → (processedOf m).get "Log_in" = none) ∧
    (m.lookup "Last_Request" = none → (processedOf m).get "Last_Request" = none) ∧
    (m.lookup "Description" = none → (processedOf m).get "Description" = none) ∧
    (process_message ⟨[("User_ID", some "x")]⟩ st).1 =
      some ⟨[("User_ID", some "x"), ("Status", none), ("Log_in", none),
             ("Last_Request", none), ("Description", none), ("timestamp", none)]⟩ :=
  ⟨rfl, rfl, rfl, rfl, rfl, rfl,
   fun h => Dict.get_eq_none_of_lookup_none m "User_ID" h,
   fun h => Dict.get_eq_none_of_lookup_none m "Status" h,
   fun h => Dict.get_eq_none_of_lookup_none m "Log_in" h,
   fun h => Dict.get_eq_none_of_lookup_none m "Last_Request" h,
   fun h => Dict.get_eq_none_of_lookup_none m "Description" h,
   rfl⟩

/-- C3 witness: the null-on-missing-key implication discharged on the malformed
single-key input. -/
theorem process_message_total_nulls_witness :
    (⟨[("User_ID", some "x")]⟩ : Dict).lookup "Status" = none ∧
    (processedOf ⟨[("User_ID", some "x")]⟩).get "Status" = none :=
  ⟨by decide,
   (process_message_total_nulls ⟨[("User_ID", some "x")]⟩ ⟨[]⟩).2.2.2.2.2.2.2.1 (by decide)⟩

/-- C4 counterexample: the claim says process_message leaves user_status_data
untouched, but calling it on any event visibly changes the (initially empty)
aggregator state. -/
theorem process_message_impure_cex :
    (process_message ⟨[("User_ID", some "x")]⟩ ⟨[]⟩).2 ≠ (⟨[]⟩ : Agg) := by
  decide

/-- C4 amended: process_message itself performs the aggregator update, replacing the
entry at the message's User_ID with the processed event (last write wins), and the
consumer loop performs no aggregator update beyond that call. -/
theorem process_message_updates_aggregator (m : Dict) (st : Agg) (db : Option Table) :
    (process_message m st).2 = st.updateEntry (m.get "User_ID") (processedOf m) ∧
    (consume_step (st, db) m).1 = (process_message m st).2 :=
  ⟨rfl, rfl⟩

/-- C5: init_db unconditionally drops and recreates streamed_messages, so from any
prior state it yields the empty table, running it twice changes nothing further, and
the resulting table holds no rows. -/
theorem init_db_clean_slate (db : Option Table) :
    init_db db = some ⟨1, []⟩ ∧
    init_db (init_db db) = init_db db ∧
    get_all_messages (init_db (init_db db)) = [] :=
  ⟨rfl, rfl, rfl⟩

/-- C6: on a table whose id column is duplicate-free (the AUTOINCREMENT invariant),
deleting an id that is present removes exactly one row, and deleting an absent id
leaves the table unchanged without failing. -/
theorem delete_message_spec (t : Table) (mid : Nat)
    (hnodup : (t.rows.map Row.id).Nodup) :
    ((∃ r ∈ t.rows, r.id = mid) →
      (get_all_messages (delete_message mid (some t))).length + 1 = t.rows.length) ∧
    ((∀ r ∈ t.rows, r.id ≠ mid) → delete_message mid (some t) = some t) := by
  constructor
  · rintro ⟨r, hr, hrid⟩
    simpa [delete_message, get_all_messages] using
      filter_length_delete mid t.rows hnodup r hr hrid
  · intro hall
    have hkeep : t.rows.filter (fun row => row.id ≠ mid) = t.rows := by
      apply List.filter_eq_self.2
      intro x hx
      simpa using hall x hx
    show some ⟨t.next_id, t.rows.filter (fun row => row.id ≠ mid)⟩ = some t
    rw [hkeep]

/-- C6 witness: both branches evaluated on a concrete two-row table, deleting the
present id 1 and the absent id 99. -/
theorem delete_message_spec_witness :
    (sampleTable.rows.map Row.id).Nodup ∧
    (∃ r ∈ sampleTable.rows, r.id = 1) ∧
    (get_all_messages (delete_message 1 (some sampleTable))).length + 1 =
      sampleTable.rows.length ∧
    delete_message 99 (some sampleTable) = some sampleTable :=
  ⟨by decide, by decide,
   (delete_message_spec sampleTable 1 (by decide)).1 (by decide),
   (delete_message_spec sampleTable 99 (by decide)).2 (by decide)⟩

/-- C7: every generated message draws its user, status and description from the fixed
rosters, its login time is now minus a whole number of 1 to 8 hours, its last-request
time is now minus 1 to 60 whole minutes, and strict precedence of login before last
request is not guaranteed: with offsets 1 hour and 60 minutes the two coincide. -/
theorem generate_messages_ranges (now : Int) (c : GenChoice) (h : c.valid) :
    (generate_message now c).user_id ∈ users ∧
    (generate_message now c).status ∈ statuses ∧
    (generate_message now c).description ∈ descriptions ∧
    (∃ k : Int, 1 ≤ k ∧ k ≤ 8 ∧ (generate_message now c).log_in = now - 60 * k) ∧
    (∃ k : Int, 1 ≤ k ∧ k ≤ 60 ∧ (generate_message now c).last_request = now - k) ∧
    (∃ (now2 : Int) (c2 : GenChoice), c2.valid ∧
      ¬ (generate_message now2 c2).log_in < (generate_message now2 c2).last_request) := by
  obtain ⟨hu, hs, hd, h1, h2, h3, h4⟩ := h
  exact ⟨getD_mem_of_lt "" users c.user_index hu,
    getD_mem_of_lt "" statuses c.status_index hs,
    getD_mem_of_lt "" descriptions c.description_index hd,
    ⟨c.hours_offset, h1, h2, rfl⟩,
    ⟨c.minutes_offset, h3, h4, rfl⟩,
    ⟨0, ⟨0, 0, 0, 1, 60⟩, by decide, by decide⟩⟩

/-- C7 witness: the roster membership and offset ranges evaluated at one concrete
draw. -/
theorem generate_messages_ranges_witness :
    GenChoice.valid ⟨0, 0, 0, 1, 1⟩ ∧
    (generate_message 1000 ⟨0, 0, 0, 1, 1⟩).user_id ∈ users :=
  ⟨by decide, (generate_messages_ranges 1000 ⟨0, 0, 0, 1, 1⟩ (by decide)).1⟩

/-- C8 counterexample: the claim says a publish failure does not stop the streaming
loop, so both messages would reach the file; in the source the send failure escapes the
for loop to the outer handler, and only the first message is written. -/
theorem publish_failure_stops_loop_cex :
    (producer_run true true (fun _ => false) [gm1, gm2]).1 ≠ [gm1, gm2] := by
  decide

/-- C8 amended: the file write precedes the publish attempt and publishes happen only
with an active transport; a startup failure (broker connection or topic creation)
demotes the run to file-only mode in which every message is written and none is
published; with no publish failure every message is written and published; but the
first failing publish, whose message is still written and attempted, terminates the
loop. -/
theorem producer_stream_spec (messages : List GenMessage) (publish_ok : Nat → Bool)
    (j : Nat) (hj : j < messages.length)
    (hfail : publish_ok j = false)
    (hbefore : ∀ i, i < j → publish_ok i = true) :
    (stream_loop true publish_ok 0 messages).1 = messages.take (j + 1) ∧
    (stream_loop true publish_ok 0 messages).2 = messages.take (j + 1) ∧
    producer_setup false true = false ∧
    producer_setup false false = false ∧
    producer_setup true false = false ∧
    (∀ (ms : List GenMessage) (p : Nat → Bool),
      producer_run false true p ms = (ms, []) ∧ producer_run true false p ms = (ms, [])) ∧
    (∀ (ms : List GenMessage) (p : Nat → Bool), (∀ i, p i = true) →
      producer_run true true p ms = (ms, ms)) := by
  have hflip : ∀ i, i < j → publish_ok (0 + i) = true := by
    intro i hi
    simpa using hbefore i hi
  have h := stream_loop_first_fail publish_ok messages 0 j hj (by simpa using hfail) hflip
  refine ⟨by rw [h], by rw [h], rfl, rfl, rfl, ?_, ?_⟩
  · intro ms p
    exact ⟨stream_loop_inactive p 0 ms, stream_loop_inactive p 0 ms⟩
  · intro ms p hp
    exact stream_loop_all_ok p hp 0 ms

/-- C8 witness: the amended behavior evaluated with the first publish failing on a
two-message stream: exactly the first message reaches the file. -/
theorem producer_stream_spec_witness :
    0 < ([gm1, gm2] : List GenMessage).length ∧
    (stream_loop true (fun _ => false) 0 [gm1, gm2]).1 = [gm1, gm2].take 1 :=
  ⟨by decide,
   (producer_stream_spec [gm1, gm2] (fun _ => false) 0 (by decide) rfl
     (fun i hi => absurd hi (Nat.not_lt_zero i))).1⟩

/-- C9 counterexample: the claim says an unhandled runtime error during streaming
yields a distinct non-zero exit code; in the source the streaming exception is caught
and logged and main returns, so the process exits with 0. -/
theorem producer_stream_error_exit_zero :
    producer_exit_code ProducerOutcome.stream_error = 0 := rfl

/-- C9 amended: the producer exits 1 on configuration-read failure and 2 on
file-system preparation failure, two distinct non-zero codes, while a runtime error
during streaming is caught and the process exits 0 like a normal run. -/
theorem producer_exit_codes_distinct :
    producer_exit_code ProducerOutcome.config_fail = 1 ∧
    producer_exit_code ProducerOutcome.fs_fail = 2 ∧
    producer_exit_code ProducerOutcome.config_fail ≠ 0 ∧
    producer_exit_code ProducerOutcome.fs_fail ≠ 0 ∧
    producer_exit_code ProducerOutcome.config_fail ≠
      producer_exit_code ProducerOutcome.fs_fail ∧
    producer_exit_code ProducerOutcome.stream_error = 0 := by
  decide

/-- C10: every store operation is total (its exception handler swallows any failure):
on the failure state (no table) insert and delete leave it unchanged, get_all_messages
returns the empty list, init_db still produces the fresh table, and an insert whose
message misses any of the five space-named keys inserts no row and returns normally. -/
theorem store_ops_swallow_failures (m : Dict) (t : Table)
    (h : m.lookup "User ID" = none ∨ m.lookup "Status" = none ∨
         m.lookup "Log in" = none ∨ m.lookup "Last Request" = none ∨
         m.lookup "Description" = none) :
    insert_message m (some t) = some t ∧
    get_all_messages none = [] ∧
    (∀ mid : Nat, delete_message mid none = none) ∧
    (∀ m2 : Dict, insert_message m2 none = none) ∧
    (∀ db : Option Table, init_db db = some ⟨1, []⟩) := by
  refine ⟨?_, rfl, fun _ => rfl, fun _ => rfl, fun _ => rfl⟩
  rcases hUI : m.lookup "User ID" with _ | u <;>
    rcases hS : m.lookup "Status" with _ | s <;>
      rcases hL : m.lookup "Log in" with _ | l <;>
        rcases hR : m.lookup "Last Request" with _ | r <;>
          rcases hD : m.lookup "Description" with _ | d <;>
            simp_all [insert_message]

/-- C10 witness: the pipeline's own processed message (underscore keys) misses the
space-named keys, so inserting it into the fresh table is a no-op that returns
normally. -/
theorem store_ops_swallow_failures_witness :
    ((processedOf wire1).lookup "User ID" = none ∨
     (processedOf wire1).lookup "Status" = none ∨
     (processedOf wire1).lookup "Log in" = none ∨
     (processedOf wire1).lookup "Last Request" = none ∨
     (processedOf wire1).lookup "Description" = none) ∧
    insert_message (processedOf wire1) (some ⟨1, []⟩) = some ⟨1, []⟩ :=
  ⟨by decide, (store_ops_swallow_failures (processedOf wire1) ⟨1, []⟩ (by decide)).1⟩

end BuzzlineMee
